import Mathlib

/-!
Verification of the MLDP HDB resale-price app (`src/app.py`) against its
natural-language specification.

The whole program is one script: it loads a model artifact, renders input
widgets, shows a town-filtered table of recent transactions, and on a button
press assembles a one-row feature record, reindexes it to the model's declared
feature names and predicts a price.

Shallow-embedding conventions used below:
* Numeric cell values are modelled as exact rationals `ℚ`; the claims proved at
  concrete fractional inputs (x.4, x.9) are far from rounding ties, where the
  Python float behaves exactly like the rational.
* The opaque model artifact is a structure exposing its ordered
  `feature_names_in_` list and a fallible `predict` capability, and the month
  parser of the dataframe library is an opaque `String → Option ℤ` parameter
  (`none` models a `NaT` coercion result for an unparseable month).
* Fallible steps (`joblib.load`, `pd.read_csv`, column access, `predict`)
  return `Except String _`; the single top-to-bottom script run is `runApp`,
  with `Except.error` modelling an exception escaping the script run.
* A dataframe is a list of rows together with the list of column names it
  actually has; the code's `'month' in df.columns` test and the `KeyError`
  raised by accessing a missing column are modelled through that column list.
-/

namespace MLDP

/-- A cell value of the one-row feature dataframe: numeric or categorical.
`reindex(..., fill_value=0)` fills missing columns with numeric `0`. -/
inductive Value where
  | num (q : ℚ)
  | str (s : String)
deriving DecidableEq, Repr

/-- One row of the historical transactions CSV (`hdb.csv`), with the raw
`month` text still unparsed. -/
structure Txn where
  town : String
  block : String
  street_name : String
  flat_model : String
  flat_type : String
  floor_area_sqm : ℚ
  resale_price : ℚ
  month : String
deriving DecidableEq, Repr

/-- The loaded historical dataframe: the column names it has, and its rows.
Rows carry every field; whether the code may access a field is governed by
`cols`, mirroring `df.columns` membership and `KeyError` on missing columns. -/
structure Dataset where
  cols : List String
  rows : List Txn
deriving Repr

/-- Whether the dataframe has column `c`, as tested by `c in df.columns`. -/
def Dataset.hasCol (ds : Dataset) (c : String) : Bool := ds.cols.contains c

/-! ### Currency formatters

`app.py` line 95 formats a resale price with `f"${int(x):,}"` (Python `int()`
truncates toward zero), and line 165 formats the prediction with
`f"${prediction:,.0f}"` (rounds to the nearest integer, ties to even). -/

/-- Insert a `','` every three digits, walking a least-significant-first digit
list; `k` counts digits already emitted in the current group. -/
def commaRev : List Char → ℕ → List Char
  | [], _ => []
  | c :: cs, k =>
    c :: (if (k + 1) % 3 == 0 && !cs.isEmpty then ',' :: commaRev cs 0 else commaRev cs (k + 1))

/-- Decimal rendering of a natural number with thousands separators,
as produced by Python's `,` format option. -/
def commaGroup (n : ℕ) : String :=
  String.mk ((commaRev (Nat.toDigits 10 n).reverse 0).reverse)

/-- Decimal rendering of an integer with thousands separators. -/
def intComma (i : ℤ) : String :=
  if i < 0 then "-" ++ commaGroup i.natAbs else commaGroup i.natAbs

/-- Python `int(x)`: truncation toward zero, computed on the reduced
numerator and denominator. -/
def pyInt (q : ℚ) : ℤ := q.num.sign * ((q.num.natAbs / q.den : ℕ) : ℤ)

/-- Rounding to the nearest integer, ties to even, as done by Python's
`.0f` float formatting. `f` is the floor of `q` and `r` the numerator of the
fractional part, so the fraction compares to `1/2` as `2 * r` to `d`. -/
def roundHalfEven (q : ℚ) : ℤ :=
  let d : ℤ := (q.den : ℤ)
  let f : ℤ := Int.fdiv q.num d
  let r : ℤ := q.num - f * d
  if 2 * r < d then f
  else if d < 2 * r then f + 1
  else if f % 2 = 0 then f else f + 1

/-- Line 95: `f"${int(x):,}"`, applied to each displayed resale price. -/
def formatResale (x : ℚ) : String := "$" ++ intComma (pyInt x)

/-- Line 165: `f"${prediction:,.0f}"`, applied to the model output. -/
def formatPrediction (p : ℚ) : String := "$" ++ intComma (roundHalfEven p)

/-! ### Historical lookup (lines 62-105)

The code converts the `month` column with `pd.to_datetime(..., errors='coerce')`
(unparseable months become `NaT`), filters rows whose `town` equals the
selected town, drops rows with `NaT` months, sorts by month descending and
takes the head 5.  The date parser is opaque: it is passed in as
`parse : String → Option ℤ`, a parsed month being an integer on the
chronological axis and `none` a `NaT`. -/

/-- The descending-month ordering used by `sort_values('month', ascending=False)`:
`a` comes before `b` when `a`'s parsed month is at least `b`'s. -/
def monthGE (a b : Txn × ℤ) : Prop := b.2 ≤ a.2

instance : DecidableRel monthGE := fun a b => Int.decLe b.2 a.2

instance : IsTotal (Txn × ℤ) monthGE := ⟨fun a b => Int.le_total b.2 a.2⟩

instance : IsTrans (Txn × ℤ) monthGE := ⟨fun _ _ _ h1 h2 => le_trans h2 h1⟩

/-- Rows surviving `df[df['town'] == town].dropna(subset=['month'])` after the
`to_datetime` conversion, each paired with its parsed month. -/
def eligibleRows (parse : String → Option ℤ) (rows : List Txn) (selTown : String) :
    List (Txn × ℤ) :=
  ((rows.map (fun r => (r, parse r.month))).filter (fun p => p.1.town == selTown)).filterMap
    (fun p => p.2.map (fun m => (p.1, m)))

/-- The `recent` dataframe of lines 69-74: filter to the selected town, drop
unparseable months, sort by month descending, take the first 5. -/
def recentRows (parse : String → Option ℤ) (rows : List Txn) (selTown : String) :
    List (Txn × ℤ) :=
  (List.insertionSort monthGE (eligibleRows parse rows selTown)).take 5

/-- One displayed row of the recent-transactions table after the column
selection, renaming and price formatting of lines 82-95. -/
structure DisplayRow where
  block : String
  street : String
  model : String
  type : String
  area : ℚ
  price : String
deriving DecidableEq, Repr

/-- Column selection and renaming of lines 83-91 plus the price formatting of
line 95, applied to one row. -/
def displayRow (t : Txn) : DisplayRow :=
  { block := t.block, street := t.street_name, model := t.flat_model,
    type := t.flat_type, area := t.floor_area_sqm, price := formatResale t.resale_price }

/-- The columns accessed by the display step (line 83); a dataset lacking one
raises a `KeyError` there. -/
def displayColumns : List String :=
  ["block", "street_name", "flat_model", "flat_type", "floor_area_sqm", "resale_price"]

/-- What the recent-transactions section of the page shows. -/
inductive LookupOutcome where
  | table (rows : List DisplayRow)
  | info (msg : String)
  | warning (msg : String)
  | nothing
deriving DecidableEq, Repr

/-- The body of the `try:` block, lines 64-102, given an already-loaded
dataset.  `'month' in df_hdb.columns` guards the whole lookup; accessing the
`town` column or the display columns when absent raises a `KeyError`, modelled
as `Except.error`. -/
def lookupBody (parse : String → Option ℤ) (ds : Dataset) (selTown : String) :
    Except String LookupOutcome :=
  if ds.hasCol "month" then
    if ds.hasCol "town" then
      let recent := recentRows parse ds.rows selTown
      if recent.isEmpty then
        Except.ok (LookupOutcome.info ("No recent transactions found for " ++ selTown ++ "."))
      else
        if displayColumns.all (fun c => ds.hasCol c) then
          Except.ok (LookupOutcome.table (recent.map (fun p => displayRow p.1)))
        else
          Except.error "KeyError"
    else
      Except.error "KeyError"
  else
    Except.ok LookupOutcome.nothing

/-- Sequencing of fallible steps: an exception in `x` propagates past `f`.
This is the exception semantics of straight-line Python statements. -/
def bindE {α β : Type} (x : Except String α) (f : α → Except String β) : Except String β :=
  match x with
  | Except.error e => Except.error e
  | Except.ok a => f a

/-- Lines 62-105: the whole recent-transactions section.  `dsLoad` is the
result of `pd.read_csv('hdb.csv')`; any exception raised by the load or the
body is caught by the `except` clause and turned into the `st.warning` message
of line 105.  The section is a total function: no exception escapes it. -/
def lookupSection (parse : String → Option ℤ) (dsLoad : Except String Dataset)
    (selTown : String) : LookupOutcome :=
  match bindE dsLoad (fun ds => lookupBody parse ds selTown) with
  | Except.ok r => r
  | Except.error e =>
      LookupOutcome.warning ("Could not load recent transactions data. (" ++ e ++ ")")

/-! ### Age & lease inputs (lines 109-141) -/

/-- The mutually exclusive age-input modes selected by the radio control of
line 112: the Year-Built slider, or the two manual number inputs. -/
inductive AgeInputMode where
  | yearBuilt (year : ℤ)
  | manual (age : ℤ) (lease : ℤ)
deriving DecidableEq, Repr

/-- Lines 118-141: the `(flat_age, remaining_lease_years)` pair produced by
the active branch.  Year-Built: `flat_age = current_year - year_built` and
`remaining_lease_years = max(1, 99 - flat_age)`; Manual: both taken verbatim
from the inputs. -/
def ageValues (currentYear : ℤ) : AgeInputMode → ℤ × ℤ
  | AgeInputMode.yearBuilt y =>
      (currentYear - y, max 1 (99 - (currentYear - y)))
  | AgeInputMode.manual a l => (a, l)

/-! ### Feature assembly and prediction (lines 146-168) -/

/-- The widget values a single interaction collects (§3 PropertyInput). -/
structure PropertyInput where
  floor_area : ℚ
  flat_type : String
  town : String
  flat_model : String
  ageMode : AgeInputMode
deriving Repr

/-- The one-row `input_df` of lines 148-155, as an ordered association list of
column name to cell value. -/
def assembleRecord (inp : PropertyInput) (flat_age lease : ℤ) : List (String × Value) :=
  [("floor_area_sqm", Value.num inp.floor_area),
   ("flat_age", Value.num (flat_age : ℚ)),
   ("remaining_lease_years", Value.num (lease : ℚ)),
   ("flat_type", Value.str inp.flat_type),
   ("town", Value.str inp.town),
   ("flat_model", Value.str inp.flat_model)]

/-- Value of column `c` after `reindex(..., fill_value=0)`: the assembled
value when the record has the column, numeric `0` otherwise. -/
def lookup0 (rec : List (String × Value)) (c : String) : Value :=
  ((rec.find? (fun p => p.1 == c)).map Prod.snd).getD (Value.num 0)

/-- Line 158: `input_df.reindex(columns=model.feature_names_in_, fill_value=0)`.
The result has exactly the requested columns in the requested order; a column
the record has keeps its value, a missing one is filled with `0`, and record
columns not requested are dropped. -/
def reindexRecord (rec : List (String × Value)) (cols : List String) :
    List (String × Value) :=
  cols.map (fun c => (c, lookup0 rec c))

/-- The deserialized model artifact: its declared ordered feature-name list
and its opaque, fallible prediction capability (line 161 takes element `[0]`
of the returned array, so one numeric output). -/
structure RFModel where
  feature_names_in_ : List String
  predict : List (String × Value) → Except String ℚ

/-- What one full top-to-bottom run of the script renders, when it finishes. -/
structure Page where
  lookup : LookupOutcome
  flat_age : ℤ
  remaining_lease_years : ℤ
  predictionCard : Option String
  aboutShown : Bool

/-- One full script run (the whole of `app.py`): model load at line 15 (not
wrapped in any handler), the recent-transactions section, the age section,
and — only when the button of line 146 was pressed — assembly, reindexing and
prediction, with `model.predict` also outside any handler.  An
`Except.error` is an exception escaping the script run: everything after the
raising line, the About section and footer included, is not rendered. -/
def runApp (modelLoad : Except String RFModel) (dsLoad : Except String Dataset)
    (parse : String → Option ℤ) (inp : PropertyInput) (currentYear : ℤ)
    (buttonPressed : Bool) : Except String Page :=
  bindE modelLoad fun model =>
    let lookup := lookupSection parse dsLoad inp.town
    let al := ageValues currentYear inp.ageMode
    bindE
      (if buttonPressed then
        bindE (model.predict (reindexRecord (assembleRecord inp al.1 al.2)
            model.feature_names_in_)) fun prediction =>
          Except.ok (some (formatPrediction prediction))
      else
        Except.ok none)
      fun card =>
        Except.ok { lookup := lookup, flat_age := al.1, remaining_lease_years := al.2,
                    predictionCard := card, aboutShown := true }

/-! ### Concrete fixtures used by the instantiated scenarios -/

/-- A historical row with the given town, raw month text and block label; the
remaining fields are fixed representative values. -/
def hdbRow (tn mo blk : String) : Txn :=
  { town := tn, block := blk, street_name := "BEDOK NTH ST 3", flat_model := "Improved",
    flat_type := "4 ROOM", floor_area_sqm := 92, resale_price := 450000, month := mo }

/-- A concrete month parser standing in for `pd.to_datetime(_, errors='coerce')`:
the months of 2024 parse to their chronological index, anything else is `NaT`. -/
def parseDemo (s : String) : Option ℤ :=
  (([("2024-01", (202401 : ℤ)), ("2024-02", 202402), ("2024-03", 202403),
     ("2024-04", 202404), ("2024-05", 202405), ("2024-06", 202406),
     ("2024-07", 202407)]).find? (fun p => p.1 == s)).map Prod.snd

/-- Seven BEDOK transactions with distinct months, in shuffled order, plus one
TAMPINES transaction. -/
def dataset7 : List Txn :=
  [hdbRow "BEDOK" "2024-03" "B3", hdbRow "BEDOK" "2024-01" "B1",
   hdbRow "TAMPINES" "2024-07" "T7", hdbRow "BEDOK" "2024-07" "B7",
   hdbRow "BEDOK" "2024-05" "B5", hdbRow "BEDOK" "2024-02" "B2",
   hdbRow "BEDOK" "2024-06" "B6", hdbRow "BEDOK" "2024-04" "B4"]

/-- Three BEDOK transactions with distinct months plus one TAMPINES one. -/
def dataset3 : List Txn :=
  [hdbRow "BEDOK" "2024-02" "B2", hdbRow "TAMPINES" "2024-03" "T3",
   hdbRow "BEDOK" "2024-01" "B1", hdbRow "BEDOK" "2024-03" "B3"]

/-- Two parseable BEDOK transactions around one whose month text parses to no
calendar date. -/
def datasetBad : List Txn :=
  [hdbRow "BEDOK" "2024-01" "B1", hdbRow "BEDOK" "13/45/2024" "BX",
   hdbRow "BEDOK" "2024-02" "B2"]

/-- A property input matching the spec's end-to-end scenario. -/
def demoInput : PropertyInput :=
  { floor_area := 90, flat_type := "4 ROOM", town := "TAMPINES",
    flat_model := "Improved", ageMode := AgeInputMode.manual 20 79 }

/-- A property input using Manual mode with flat age 25 and remaining lease 70. -/
def manual2570Input : PropertyInput :=
  { floor_area := 90, flat_type := "4 ROOM", town := "TAMPINES",
    flat_model := "Improved", ageMode := AgeInputMode.manual 25 70 }

/-- The six canonical assembled feature names, in the assembly order of
lines 148-155. -/
def canonicalColumns : List String :=
  ["floor_area_sqm", "flat_age", "remaining_lease_years", "flat_type", "town", "flat_model"]

/-- A model artifact whose prediction capability always raises, standing in
for an inference failure at request time. -/
def failingModel : RFModel :=
  { feature_names_in_ := ["floor_area_sqm", "flat_age", "remaining_lease_years",
                          "flat_type", "town", "flat_model"],
    predict := fun _ => Except.error "ValueError" }

/-- A dataset that loaded fine but has no `month` column. -/
def noMonthDataset : Dataset :=
  { cols := ["town", "block", "street_name"], rows := [hdbRow "BEDOK" "2024-01" "B1"] }

/-- A dataset with a `month` column but no `town` column. -/
def noTownDataset : Dataset :=
  { cols := ["month", "resale_price"], rows := dataset3 }

/-- A dataset with every column the lookup touches. -/
def fullDataset : Dataset :=
  { cols := "month" :: "town" :: displayColumns, rows := dataset3 }

/-! ### Helper lemmas -/

/-- Membership in the filtered, month-parsed row list: exactly the dataset
rows of the selected town whose month parses, paired with the parsed month. -/
lemma mem_eligibleRows {parse : String → Option ℤ} {rows : List Txn} {t : String}
    {p : Txn × ℤ} :
    p ∈ eligibleRows parse rows t ↔
      p.1 ∈ rows ∧ p.1.town = t ∧ parse p.1.month = some p.2 := by
  obtain ⟨r, m⟩ := p
  constructor
  · intro h
    rcases List.mem_filterMap.1 h with ⟨a, ha, hfa⟩
    rcases List.mem_filter.1 ha with ⟨ham, hat⟩
    rcases List.mem_map.1 ham with ⟨r', hr', rfl⟩
    cases hp : parse r'.month with
    | none => rw [hp] at hfa; simp at hfa
    | some m' =>
      rw [hp] at hfa
      simp only [Option.map_some', Option.some.injEq, Prod.mk.injEq] at hfa
      obtain ⟨rfl, rfl⟩ := hfa
      exact ⟨hr', by simpa using hat, hp⟩
  · rintro ⟨hr, ht, hp⟩
    refine List.mem_filterMap.2 ⟨(r, parse r.month), List.mem_filter.2 ⟨List.mem_map.2 ⟨r, hr, rfl⟩, by simpa using ht⟩, ?_⟩
    rw [hp]; rfl

/-- A row of the `recent` dataframe comes from the dataset, has the selected
town and a parsed month. -/
lemma mem_recentRows {parse : String → Option ℤ} {rows : List Txn} {t : String}
    {p : Txn × ℤ} (h : p ∈ recentRows parse rows t) :
    p.1 ∈ rows ∧ p.1.town = t ∧ parse p.1.month = some p.2 := by
  have h1 := List.mem_of_mem_take h
  rw [List.mem_insertionSort] at h1
  exact mem_eligibleRows.1 h1

/-- The value an assembled column keeps through `lookup0`: the six assembled
column names are pairwise distinct, so `find?` recovers the assembled value. -/
lemma lookup0_assembleRecord {inp : PropertyInput} {a l : ℤ} {c : String} {v : Value}
    (h : (c, v) ∈ assembleRecord inp a l) : lookup0 (assembleRecord inp a l) c = v := by
  simp only [assembleRecord, List.mem_cons, List.not_mem_nil, or_false, Prod.mk.injEq] at h
  rcases h with ⟨rfl, rfl⟩ | ⟨rfl, rfl⟩ | ⟨rfl, rfl⟩ | ⟨rfl, rfl⟩ | ⟨rfl, rfl⟩ | ⟨rfl, rfl⟩ <;> rfl

/-! ### Claim theorems -/

/-- C3: Historical Lookup keeps exactly the records of the selected town
(case-sensitive), drops every record whose month does not parse (never sorting
it to either end and raising no error), sorts by month descending, and takes
the first 5; on a dataset with 7 matching distinct-month transactions it
yields exactly the 5 most recent in descending order, and on a dataset with 3
matching transactions it yields all 3. -/
theorem historical_lookup_correct :
    (∀ (parse : String → Option ℤ) (rows : List Txn) (t : String),
      (∀ p ∈ recentRows parse rows t,
         p.1 ∈ rows ∧ p.1.town = t ∧ parse p.1.month = some p.2) ∧
      (∀ r ∈ rows, parse r.month = none → ∀ m : ℤ, (r, m) ∉ recentRows parse rows t) ∧
      List.Sorted monthGE (recentRows parse rows t) ∧
      (recentRows parse rows t).length = min 5 (eligibleRows parse rows t).length ∧
      ((eligibleRows parse rows t).length ≤ 5 →
         List.Perm (recentRows parse rows t) (eligibleRows parse rows t))) ∧
    recentRows parseDemo dataset7 "BEDOK" =
      [(hdbRow "BEDOK" "2024-07" "B7", 202407), (hdbRow "BEDOK" "2024-06" "B6", 202406),
       (hdbRow "BEDOK" "2024-05" "B5", 202405), (hdbRow "BEDOK" "2024-04" "B4", 202404),
       (hdbRow "BEDOK" "2024-03" "B3", 202403)] ∧
    recentRows parseDemo dataset3 "BEDOK" =
      [(hdbRow "BEDOK" "2024-03" "B3", 202403), (hdbRow "BEDOK" "2024-02" "B2", 202402),
       (hdbRow "BEDOK" "2024-01" "B1", 202401)] ∧
    recentRows parseDemo datasetBad "BEDOK" =
      [(hdbRow "BEDOK" "2024-02" "B2", 202402), (hdbRow "BEDOK" "2024-01" "B1", 202401)] := by
  refine ⟨fun parse rows t => ⟨fun p hp => mem_recentRows hp, ?_, ?_, ?_, ?_⟩,
    by decide, by decide, by decide⟩
  · intro r _ hnone m hmem
    have h2 := (mem_recentRows hmem).2.2
    rw [hnone] at h2
    exact Option.noConfusion h2
  · exact (List.sorted_insertionSort monthGE (eligibleRows parse rows t)).sublist
      (List.take_sublist 5 _)
  · simp [recentRows]
  · intro hlen
    rw [recentRows, List.take_of_length_le (by rw [List.length_insertionSort]; exact hlen)]
    exact List.perm_insertionSort _ _

/-- Witness for C3 at concrete inputs: a returned row of the bad-month dataset
has the selected town, and the unparseable-month row is excluded. -/
theorem historical_lookup_correct_witness :
    (hdbRow "BEDOK" "2024-02" "B2").town = "BEDOK" ∧
    ∀ m : ℤ, (hdbRow "BEDOK" "13/45/2024" "BX", m) ∉ recentRows parseDemo datasetBad "BEDOK" := by
  have h := (historical_lookup_correct.1 parseDemo datasetBad "BEDOK")
  exact ⟨(h.1 (hdbRow "BEDOK" "2024-02" "B2", 202402) (by decide)).2.1,
    h.2.1 (hdbRow "BEDOK" "13/45/2024" "BX") (by decide) (by decide)⟩

/-- C2: for every PropertyInput and every model-declared feature-name list,
the reindexed record has exactly the declared columns in the declared order;
a declared column among the six assembled ones keeps its assembled value, a
declared column absent from the six is filled with `0`, and an assembled
column the model does not declare is dropped. -/
theorem reindex_alignment :
    ∀ (inp : PropertyInput) (a l : ℤ) (cols : List String),
      ((reindexRecord (assembleRecord inp a l) cols).map Prod.fst = cols) ∧
      (∀ c v, (c, v) ∈ assembleRecord inp a l → c ∈ cols →
         (c, v) ∈ reindexRecord (assembleRecord inp a l) cols) ∧
      (∀ c, c ∈ cols → c ∉ (assembleRecord inp a l).map Prod.fst →
         (c, Value.num 0) ∈ reindexRecord (assembleRecord inp a l) cols) ∧
      (∀ c v, (c, v) ∈ reindexRecord (assembleRecord inp a l) cols → c ∈ cols) := by
  intro inp a l cols
  refine ⟨by rw [reindexRecord, List.map_map]; exact List.map_id cols, ?_, ?_, ?_⟩
  · intro c v hmem hc
    refine List.mem_map.2 ⟨c, hc, ?_⟩
    rw [lookup0_assembleRecord hmem]
  · intro c hc hnot
    have h0 : lookup0 (assembleRecord inp a l) c = Value.num 0 := by
      rw [lookup0, List.find?_eq_none.2]
      · rfl
      · intro x hx hbeq
        exact hnot (List.mem_map.2 ⟨x, hx, (eq_of_beq hbeq)⟩)
    refine List.mem_map.2 ⟨c, hc, ?_⟩
    rw [h0]
  · intro c v h
    rcases List.mem_map.1 h with ⟨c', hc', heq⟩
    obtain ⟨rfl, -⟩ := Prod.mk.injEq .. ▸ heq
    exact hc'

/-- Witness for C2 at a concrete input and declared list: order kept, a
declared-and-assembled column keeps its value, a declared-but-unassembled
column is filled with 0, and membership implies declaredness. -/
theorem reindex_alignment_witness :
    ((reindexRecord (assembleRecord demoInput 20 79)
        ["flat_age", "price_per_sqm", "town"]).map Prod.fst =
      ["flat_age", "price_per_sqm", "town"]) ∧
    ("flat_age", Value.num ((20 : ℤ) : ℚ)) ∈
      reindexRecord (assembleRecord demoInput 20 79) ["flat_age", "price_per_sqm", "town"] ∧
    ("price_per_sqm", Value.num 0) ∈
      reindexRecord (assembleRecord demoInput 20 79) ["flat_age", "price_per_sqm", "town"] := by
  have h := reindex_alignment demoInput 20 79 ["flat_age", "price_per_sqm", "town"]
  exact ⟨h.1, h.2.1 "flat_age" (Value.num ((20 : ℤ) : ℚ)) (by simp [assembleRecord]) (by decide),
    h.2.2.1 "price_per_sqm" (by decide) (by decide)⟩

/-- C4: in Year-Built mode, for every year built between 1960 and the current
year, the flat age is `currentYear - yearBuilt` and the remaining lease is
`max 1 (99 - flatAge)`; in particular for yearBuilt = 2000. -/
theorem year_built_derivation :
    ∀ (currentYear y : ℤ), 1960 ≤ y → y ≤ currentYear →
      ageValues currentYear (AgeInputMode.yearBuilt y) =
        (currentYear - y, max 1 (99 - (currentYear - y))) ∧
      ageValues currentYear (AgeInputMode.yearBuilt 2000) =
        (currentYear - 2000, max 1 (99 - (currentYear - 2000))) := by
  intro currentYear y _ _
  exact ⟨rfl, rfl⟩

/-- Witness for C4 with currentYear 2025 and yearBuilt 2000: flat age 25 and
remaining lease 74. -/
theorem year_built_derivation_witness :
    ageValues 2025 (AgeInputMode.yearBuilt 2000) = (25, 74) := by
  have h := (year_built_derivation 2025 2000 (by decide) (by decide)).1
  rw [h]
  decide

/-- C8: assuming the six canonical feature names are declared by the model,
any floor area in [30, 200] round-trips unchanged into the reindexed feature
record, and Manual mode with flatAge 25 and remainingLeaseYears 70 puts
exactly those values into the record, for every current year (the Manual
branch never consults a year built). -/
theorem inputs_round_trip :
    ∀ (inp : PropertyInput) (currentYear : ℤ) (cols : List String),
      (30 ≤ inp.floor_area → inp.floor_area ≤ 200 → "floor_area_sqm" ∈ cols →
        ("floor_area_sqm", Value.num inp.floor_area) ∈
          reindexRecord (assembleRecord inp (ageValues currentYear inp.ageMode).1
            (ageValues currentYear inp.ageMode).2) cols) ∧
      (inp.ageMode = AgeInputMode.manual 25 70 →
        ageValues currentYear inp.ageMode = (25, 70) ∧
        ("flat_age" ∈ cols →
          ("flat_age", Value.num ((25 : ℤ) : ℚ)) ∈
            reindexRecord (assembleRecord inp (ageValues currentYear inp.ageMode).1
              (ageValues currentYear inp.ageMode).2) cols) ∧
        ("remaining_lease_years" ∈ cols →
          ("remaining_lease_years", Value.num ((70 : ℤ) : ℚ)) ∈
            reindexRecord (assembleRecord inp (ageValues currentYear inp.ageMode).1
              (ageValues currentYear inp.ageMode).2) cols)) := by
  intro inp currentYear cols
  constructor
  · intro _ _ hc
    have hv := lookup0_assembleRecord
      (show ("floor_area_sqm", Value.num inp.floor_area) ∈
        assembleRecord inp (ageValues currentYear inp.ageMode).1
          (ageValues currentYear inp.ageMode).2 by simp [assembleRecord])
    exact List.mem_map.2 ⟨"floor_area_sqm", hc, by rw [hv]⟩
  · intro hmode
    rw [hmode]
    refine ⟨rfl, fun hc => ?_, fun hc => ?_⟩
    · have hv := lookup0_assembleRecord
        (show ("flat_age", Value.num ((25 : ℤ) : ℚ)) ∈
          assembleRecord inp (ageValues currentYear (AgeInputMode.manual 25 70)).1
            (ageValues currentYear (AgeInputMode.manual 25 70)).2 by
          simp [assembleRecord, ageValues])
      exact List.mem_map.2 ⟨"flat_age", hc, by rw [hv]⟩
    · have hv := lookup0_assembleRecord
        (show ("remaining_lease_years", Value.num ((70 : ℤ) : ℚ)) ∈
          assembleRecord inp (ageValues currentYear (AgeInputMode.manual 25 70)).1
            (ageValues currentYear (AgeInputMode.manual 25 70)).2 by
          simp [assembleRecord, ageValues])
      exact List.mem_map.2 ⟨"remaining_lease_years", hc, by rw [hv]⟩

/-- Witness for C8: with the six canonical columns declared and the manual
"25 / 70" input, floor area 90 and both manual values appear verbatim in the
reindexed record. -/
theorem inputs_round_trip_witness :
    ("floor_area_sqm", Value.num (90 : ℚ)) ∈
      reindexRecord (assembleRecord manual2570Input
        (ageValues 2025 manual2570Input.ageMode).1
        (ageValues 2025 manual2570Input.ageMode).2) canonicalColumns ∧
    ("flat_age", Value.num ((25 : ℤ) : ℚ)) ∈
      reindexRecord (assembleRecord manual2570Input
        (ageValues 2025 manual2570Input.ageMode).1
        (ageValues 2025 manual2570Input.ageMode).2) canonicalColumns ∧
    ("remaining_lease_years", Value.num ((70 : ℤ) : ℚ)) ∈
      reindexRecord (assembleRecord manual2570Input
        (ageValues 2025 manual2570Input.ageMode).1
        (ageValues 2025 manual2570Input.ageMode).2) canonicalColumns := by
  have h := inputs_round_trip manual2570Input 2025 canonicalColumns
  have h2 := h.2 rfl
  exact ⟨h.1 (by decide) (by decide) (by decide), h2.2.1 (by decide), h2.2.2 (by decide)⟩

/-- C5: both formatters produce a string starting with a dollar sign and
built from a whole number with thousands separators: a raw prediction of
452875.4 renders as "$452,875" and a raw resale price of 300000 renders as
"$300,000". -/
theorem currency_formatting :
    formatPrediction (452875.4 : ℚ) = "$452,875" ∧
    formatResale (300000 : ℚ) = "$300,000" ∧
    (∀ q : ℚ, ∃ s : String, formatPrediction q = "$" ++ s) ∧
    (∀ q : ℚ, ∃ s : String, formatResale q = "$" ++ s) := by
  have hlit : (452875.4 : ℚ) = mkRat 4528754 10 := by norm_num [Rat.mkRat_eq_div]
  exact ⟨by rw [hlit]; decide, by decide, fun q => ⟨_, rfl⟩, fun q => ⟨_, rfl⟩⟩

/-- C9: on fractional inputs the two formatters disagree: the resale-price
formatter truncates toward zero via Python's `int()` so 450000.9 renders as
"$450,000", while the prediction formatter rounds to the nearest integer via
the `,.0f` format so 450000.9 renders as "$450,001". -/
theorem formatters_disagree_on_fractions :
    formatResale (450000.9 : ℚ) = "$450,000" ∧
    formatPrediction (450000.9 : ℚ) = "$450,001" ∧
    formatResale (450000.9 : ℚ) ≠ formatPrediction (450000.9 : ℚ) := by
  have hlit : (450000.9 : ℚ) = mkRat 4500009 10 := by norm_num [Rat.mkRat_eq_div]
  rw [hlit]
  exact ⟨by decide, by decide, by decide⟩

/-- C6: a model-artifact load failure is fatal: the error from line 15
propagates uncaught out of the script run regardless of every other input, so
no interaction can be served and no fallback or degraded page exists. -/
theorem model_load_failure_fatal :
    ∀ (e : String) (dsLoad : Except String Dataset) (parse : String → Option ℤ)
      (inp : PropertyInput) (currentYear : ℤ) (pressed : Bool),
      runApp (Except.error e) dsLoad parse inp currentYear pressed = Except.error e := by
  intro e dsLoad parse inp currentYear pressed
  rfl

/-- C1 counterexample: with a model whose prediction raises at request time,
the script run ends in the uncaught error — no error message element is
rendered and no page is produced, contradicting the claim that the failure is
caught and the rest of the page continues to render. -/
theorem prediction_failure_not_caught_cx :
    runApp (Except.ok failingModel) (Except.ok noMonthDataset) parseDemo demoInput 2025 true =
      Except.error "ValueError" := by
  rfl

/-- C1 amended: a prediction-invocation failure at request time is NOT
caught: the error propagates out of the script run, so the prediction card
and every section after the predict call (summary, disclaimer, about,
footer) are not rendered. -/
theorem prediction_failure_propagates :
    ∀ (model : RFModel) (dsLoad : Except String Dataset) (parse : String → Option ℤ)
      (inp : PropertyInput) (currentYear : ℤ) (e : String),
      model.predict (reindexRecord
          (assembleRecord inp (ageValues currentYear inp.ageMode).1
            (ageValues currentYear inp.ageMode).2) model.feature_names_in_) =
        Except.error e →
      runApp (Except.ok model) dsLoad parse inp currentYear true = Except.error e := by
  intro model dsLoad parse inp currentYear e h
  simp [runApp, bindE, h]

/-- Witness for the amended C1 at concrete inputs differing from the
counterexample's. -/
theorem prediction_failure_propagates_witness :
    runApp (Except.ok failingModel) (Except.error "FileNotFoundError") parseDemo
      manual2570Input 2026 true = Except.error "ValueError" :=
  prediction_failure_propagates failingModel (Except.error "FileNotFoundError") parseDemo
    manual2570Input 2026 "ValueError" rfl

/-- C7 counterexample: a dataset that loaded fine, has matching records for
the selected town, but lacks the `month` column: the lookup section surfaces
no message at all (no info, no warning, no table), contradicting the claim
that a dataset lacking an expected column surfaces an informational message. -/
theorem lookup_missing_month_cx :
    lookupSection parseDemo (Except.ok noMonthDataset) "BEDOK" = LookupOutcome.nothing := by
  rfl

/-- C7 amended: an unreadable dataset or one lacking a non-`month` expected
column surfaces a caught warning message; a town with zero matching records
surfaces an informational message; a dataset lacking the `month` column
surfaces nothing at all; in every case no error escapes the section and the
rest of the page still renders. -/
theorem lookup_error_handling :
    ∀ (parse : String → Option ℤ) (t e : String) (ds : Dataset) (m : RFModel)
      (dsLoad : Except String Dataset) (inp : PropertyInput) (currentYear : ℤ),
      (lookupSection parse (Except.error e) t =
        LookupOutcome.warning ("Could not load recent transactions data. (" ++ e ++ ")")) ∧
      (ds.hasCol "month" = true → ds.hasCol "town" = false →
        lookupSection parse (Except.ok ds) t =
          LookupOutcome.warning ("Could not load recent transactions data. (KeyError)")) ∧
      (ds.hasCol "month" = true → ds.hasCol "town" = true →
        recentRows parse ds.rows t = [] →
        lookupSection parse (Except.ok ds) t =
          LookupOutcome.info ("No recent transactions found for " ++ t ++ ".")) ∧
      (ds.hasCol "month" = false →
        lookupSection parse (Except.ok ds) t = LookupOutcome.nothing) ∧
      (∃ page, runApp (Except.ok m) dsLoad parse inp currentYear false = Except.ok page ∧
        page.lookup = lookupSection parse dsLoad inp.town) := by
  intro parse t e ds m dsLoad inp currentYear
  refine ⟨rfl, ?_, ?_, ?_, ⟨_, rfl, rfl⟩⟩
  · intro h1 h2
    simp [lookupSection, bindE, lookupBody, h1, h2]
  · intro h1 h2 h3
    simp [lookupSection, bindE, lookupBody, h1, h2, h3]
  · intro h
    simp [lookupSection, bindE, lookupBody, h]

/-- Witness for the amended C7 at concrete datasets: unreadable file warns,
missing `town` column warns, zero matching records informs. -/
theorem lookup_error_handling_witness :
    lookupSection parseDemo (Except.error "FileNotFoundError") "BEDOK" =
      LookupOutcome.warning "Could not load recent transactions data. (FileNotFoundError)" ∧
    lookupSection parseDemo (Except.ok noTownDataset) "BEDOK" =
      LookupOutcome.warning "Could not load recent transactions data. (KeyError)" ∧
    lookupSection parseDemo (Except.ok fullDataset) "YISHUN" =
      LookupOutcome.info "No recent transactions found for YISHUN." := by
  have h1 := (lookup_error_handling parseDemo "BEDOK" "FileNotFoundError" noTownDataset
    failingModel (Except.ok fullDataset) demoInput 2025)
  have h2 := (lookup_error_handling parseDemo "YISHUN" "FileNotFoundError" fullDataset
    failingModel (Except.ok fullDataset) demoInput 2025)
  refine ⟨by rw [h1.1]; try rfl, by rw [h1.2.1 (by decide) (by decide)]; try rfl,
    by rw [h2.2.2.1 (by decide) (by decide) (by decide)]; try rfl⟩

/-- C10: a successfully loaded dataset with no `month` column makes the
recent-transactions section render nothing at all — no table, no
informational message, no warning — while the rest of the page still
renders. -/
theorem missing_month_renders_nothing :
    ∀ (parse : String → Option ℤ) (ds : Dataset) (m : RFModel) (inp : PropertyInput)
      (currentYear : ℤ),
      ds.hasCol "month" = false →
      lookupSection parse (Except.ok ds) inp.town = LookupOutcome.nothing ∧
      runApp (Except.ok m) (Except.ok ds) parse inp currentYear false =
        Except.ok { lookup := LookupOutcome.nothing,
                    flat_age := (ageValues currentYear inp.ageMode).1,
                    remaining_lease_years := (ageValues currentYear inp.ageMode).2,
                    predictionCard := none, aboutShown := true } := by
  intro parse ds m inp currentYear h
  have h1 : lookupSection parse (Except.ok ds) inp.town = LookupOutcome.nothing := by
    simp [lookupSection, bindE, lookupBody, h]
  exact ⟨h1, by simp [runApp, bindE, h1]⟩

/-- Witness for C10 at a concrete month-less dataset and model. -/
theorem missing_month_renders_nothing_witness :
    lookupSection parseDemo (Except.ok noMonthDataset) "TAMPINES" = LookupOutcome.nothing ∧
    runApp (Except.ok failingModel) (Except.ok noMonthDataset) parseDemo demoInput 2025 false =
      Except.ok { lookup := LookupOutcome.nothing, flat_age := 20,
                  remaining_lease_years := 79, predictionCard := none, aboutShown := true } := by
  have h := missing_month_renders_nothing parseDemo noMonthDataset failingModel demoInput 2025
    (by decide)
  exact ⟨h.1, h.2⟩

end MLDP
